import Mathlib

/-!
Verification of the panorama pipeline in `src/main.py` (folkien/img2panorama).

The program is a single-shot pipeline: `scan_images` lists image files of a
directory, `create_panorama` decodes them with `cv2.imread` and hands them to
`cv2.Stitcher.stitch`, and `save_image` writes the result with `cv2.imwrite`.

Embedding conventions:
- A decoded raster (`np.ndarray`) is abstracted as `Image := List Nat`
  (an opaque pixel buffer; only identity and nullability matter here).
- The external OpenCV capabilities are passed in as function parameters:
  `imread : String → Option Image` (None = decode failure, exactly as in
  Python), `stitch : List Image → StitchStatus × Option Image`
  (the status/raster pair returned by `Stitcher.stitch`), and
  `imwrite : String → Image → Bool` (cv2.imwrite returns whether the file
  was written; the Python code ignores this value).
- Each embedded operation returns, alongside the Python return value, an
  instrumentation trace: the list of `imread` calls, of `stitch` invocations
  (with their argument lists), of `imwrite` calls, the files actually
  produced, and the `logging.error` messages.  The traces record exactly the
  calls the Python control flow performs, in order.
-/

namespace Img2Panorama

/-- A decoded in-memory raster, abstracted as an opaque pixel buffer. -/
abbrev Image := List Nat

/-- The status codes of `cv2.Stitcher.stitch`: `Stitcher_OK` and the closed
set of failure codes of OpenCV's stitching module. -/
inductive StitchStatus where
  | OK
  | ERR_NEED_MORE_IMGS
  | ERR_HOMOGRAPHY_EST_FAIL
  | ERR_CAMERA_PARAMS_ADJUST_FAIL
deriving DecidableEq

/-- The numeric value of each OpenCV stitcher status code
(`Stitcher_OK = 0`, `ERR_NEED_MORE_IMGS = 1`, ...), as printed by the
Python log line for a failed stitch. -/
def statusCode : StitchStatus → Nat
  | StitchStatus.OK => 0
  | StitchStatus.ERR_NEED_MORE_IMGS => 1
  | StitchStatus.ERR_HOMOGRAPHY_EST_FAIL => 2
  | StitchStatus.ERR_CAMERA_PARAMS_ADJUST_FAIL => 3

/-- The `logging.error` message of `create_panorama` when some image fails
to decode (src/main.py line 19).  It is a fixed string: the failing path is
not interpolated into it. -/
def loadErrMsg : String := "One or more images could not be loaded."

/-- The `logging.error` message of `create_panorama` when the stitcher
returns a non-OK status (src/main.py line 29); the Python f-string
interpolates the numeric status code. -/
def stitchFailMsg (s : StitchStatus) : String :=
  "Failed to stitch images, error code: " ++ toString (statusCode s)

/-- The `logging.error` message of `main` when the directory scan finds no
images (src/main.py line 63). -/
def noImagesMsg : String := "No images found to process. Exiting program."

/-- The `logging.error` message of `main` when `create_panorama` returned
`None` (src/main.py line 73). -/
def failedPanoramaMsg : String := "Failed to create a panorama."

/-- Result of one `create_panorama` run: the Python return value
(`Optional[np.ndarray]`) plus the instrumentation trace of external calls. -/
structure StitchRun where
  result : Option Image
  imreadCalls : List String
  stitchCalls : List (List Image)
  errorLogs : List String
deriving DecidableEq

/-- Embedding of `create_panorama` (src/main.py lines 11-33).

```
images = [cv2.imread(img_file) for img_file in image_files]
if any(img is None for img in images): return None
stitcher = cv2.Stitcher_create()
status, panorama = stitcher.stitch(images)
if status != cv2.Stitcher_OK: return None
return panorama
```

`imread` is called once per path, in list order, before the None check.
When the check passes every element of `images` is `some`, and
`images.filterMap id` is that same list with the `some` wrappers stripped,
in order — the list Python passes to `stitcher.stitch`.  `stitchCalls`
records each invocation of the engine with its argument list. -/
def create_panorama (stitch : List Image → StitchStatus × Option Image)
    (imread : String → Option Image) (image_files : List String) : StitchRun :=
  let images := image_files.map imread
  if images.any Option.isNone then
    { result := none, imreadCalls := image_files, stitchCalls := [],
      errorLogs := [loadErrMsg] }
  else
    let args := images.filterMap id
    let out := stitch args
    if out.1 ≠ StitchStatus.OK then
      { result := none, imreadCalls := image_files, stitchCalls := [args],
        errorLogs := [stitchFailMsg out.1] }
    else
      { result := out.2, imreadCalls := image_files, stitchCalls := [args],
        errorLogs := [] }

/-- Result of one `save_image` call: the Python function returns `None`, so
only the trace is observable.  `filesProduced` lists the destination when
`imwrite` reported success (cv2.imwrite creates the file exactly when it
returns true); `loggedSaved` records whether the
"Panorama saved as ..." info message was emitted. -/
structure WriteResult where
  writeCalls : List (String × Image)
  filesProduced : List String
  loggedSaved : Bool
deriving DecidableEq

/-- Embedding of `save_image` (src/main.py lines 35-38).

```
cv2.imwrite(file_name, image)
logging.info(f"Panorama saved as ...")
```

Exactly one `imwrite` call; its boolean result is discarded; the saved
message is logged unconditionally; nothing is returned to the caller. -/
def save_image (imwrite : String → Image → Bool) (image : Image)
    (file_name : String) : WriteResult :=
  let ok := imwrite file_name image
  { writeCalls := [(file_name, image)],
    filesProduced := if ok then [file_name] else [],
    loggedSaved := true }

/-- Model of Python's `str.lower()`: lower-case each character. -/
def str_lower (s : String) : String := ⟨s.data.map Char.toLower⟩

/-- Model of Python's `str.endswith(post)`: the characters of `post` are a
suffix of the characters of `s`. -/
def str_endswith (s post : String) : Bool := post.data.isSuffixOf s.data

/-- The tuple of recognized extensions of `scan_images`
(src/main.py line 42). -/
def supported_extensions : List String := [".jpg", ".jpeg", ".png"]

/-- Model of `os.path.join(directory, f)` for a relative entry name, as
produced by `os.listdir`: directory, separator, name. -/
def path_join (directory f : String) : String := directory ++ "/" ++ f

/-- Embedding of `scan_images` (src/main.py lines 40-51).

```
image_files = [os.path.join(directory, f) for f in os.listdir(directory)
               if f.lower().endswith(supported_extensions)]
```

`listing` plays the role of `os.listdir(directory)`.  Python's
`str.endswith` with a tuple succeeds when the string ends with any element
of the tuple. -/
def scan_images (directory : String) (listing : List String) : List String :=
  (listing.filter
      (fun f => supported_extensions.any (fun ext => str_endswith (str_lower f) ext))).map
    (fun f => path_join directory f)

/-- Result of one full `main` run: the traces of all external calls, the
files actually produced, the error log, and the process exit status. -/
structure RunResult where
  imreadCalls : List String
  stitchCalls : List (List Image)
  writeCalls : List (String × Image)
  filesProduced : List String
  errorLogs : List String
  exitCode : Nat
deriving DecidableEq

/-- Embedding of `main` (src/main.py lines 53-76), past argument parsing.

```
image_files = scan_images(args.input_dir)
if not image_files: logging.error("No images found..."); return
panorama = create_panorama(image_files)
if panorama is not None: save_image(panorama, 'panorama_output.jpg')
else: logging.error("Failed to create a panorama.")
```

Every path of the Python `main` ends in a plain `return` (no exception is
raised on these paths and `sys.exit` is never called), so the interpreter
exits with status 0 on every run; `exitCode` is therefore 0 in every
branch of the embedding. -/
def main (stitch : List Image → StitchStatus × Option Image)
    (imread : String → Option Image) (imwrite : String → Image → Bool)
    (input_dir : String) (listing : List String) : RunResult :=
  let image_files := scan_images input_dir listing
  if image_files.isEmpty then
    { imreadCalls := [], stitchCalls := [], writeCalls := [],
      filesProduced := [], errorLogs := [noImagesMsg], exitCode := 0 }
  else
    let r := create_panorama stitch imread image_files
    match r.result with
    | some panorama =>
        let w := save_image imwrite panorama "panorama_output.jpg"
        { imreadCalls := r.imreadCalls, stitchCalls := r.stitchCalls,
          writeCalls := w.writeCalls, filesProduced := w.filesProduced,
          errorLogs := r.errorLogs, exitCode := 0 }
    | none =>
        { imreadCalls := r.imreadCalls, stitchCalls := r.stitchCalls,
          writeCalls := [], filesProduced := [],
          errorLogs := r.errorLogs ++ [failedPanoramaMsg], exitCode := 0 }

/-! Concrete fixtures used by witnesses and counterexamples. -/

/-- A concrete raster. -/
def imgA : Image := [1, 2, 3]

/-- A second concrete raster, used as a stitched panorama. -/
def imgPano : Image := [7, 7, 7, 7]

/-- A decoder on which every path decodes to `imgA`. -/
def imreadAll : String → Option Image := fun _ => some imgA

/-- A decoder on which every path fails to decode. -/
def imreadNone : String → Option Image := fun _ => none

/-- An engine that always succeeds with `imgPano`. -/
def stitchOK : List Image → StitchStatus × Option Image :=
  fun _ => (StitchStatus.OK, some imgPano)

/-- An engine that always fails with `ERR_NEED_MORE_IMGS`. -/
def stitchNeedMore : List Image → StitchStatus × Option Image :=
  fun _ => (StitchStatus.ERR_NEED_MORE_IMGS, none)

/-- An engine that always fails with `ERR_HOMOGRAPHY_EST_FAIL`. -/
def stitchHomFail : List Image → StitchStatus × Option Image :=
  fun _ => (StitchStatus.ERR_HOMOGRAPHY_EST_FAIL, none)

/-- A writer whose writes always succeed. -/
def imwriteOK : String → Image → Bool := fun _ _ => true

/-- A writer whose writes always fail (permissions, disk full, ...). -/
def imwriteFail : String → Image → Bool := fun _ _ => false

/-! Helper lemmas. -/

/-- If some listed path fails to decode, the decoded list contains a `none`. -/
lemma any_isNone_of_mem_none {imread : String → Option Image}
    {image_files : List String} {p : String} (hp : p ∈ image_files)
    (h : imread p = none) :
    (image_files.map imread).any Option.isNone = true := by
  refine List.any_eq_true.mpr ⟨imread p, List.mem_map_of_mem imread hp, ?_⟩
  simp [h]

/-- If every listed path decodes, the decoded list contains no `none`. -/
lemma any_isNone_eq_false {imread : String → Option Image}
    {image_files : List String}
    (h : ∀ p ∈ image_files, (imread p).isSome) :
    (image_files.map imread).any Option.isNone = false := by
  rw [List.any_eq_false]
  intro x hx
  rcases List.mem_map.mp hx with ⟨p, hp, rfl⟩
  simp only [Option.isNone_iff_eq_none]
  exact Option.isSome_iff_ne_none.mp (h p hp)

/-- Stripping the `some` wrappers from an all-`some` list and putting them
back gives the list back: `filterMap id` loses nothing and keeps order. -/
lemma filterMap_id_map_some {α : Type} {l : List (Option α)}
    (h : ∀ x ∈ l, x.isSome) : (l.filterMap id).map some = l := by
  induction l with
  | nil => rfl
  | cons x t ih =>
      cases x with
      | none => exact absurd (h none (List.mem_cons_self _ _)) (by simp)
      | some a =>
          simp only [List.filterMap_cons, id]
          simp only [List.map_cons, List.cons_inj_right]
          exact ih (fun y hy => h y (List.mem_cons_of_mem _ hy))

/-- Branch lemma: when some image fails to decode, `create_panorama` takes
the early-return branch — result `none`, no stitch call, the fixed load
error message. -/
lemma create_panorama_load_fail (stitch : List Image → StitchStatus × Option Image)
    (imread : String → Option Image) (image_files : List String)
    (h : (image_files.map imread).any Option.isNone = true) :
    create_panorama stitch imread image_files =
      { result := none, imreadCalls := image_files, stitchCalls := [],
        errorLogs := [loadErrMsg] } := by
  simp [create_panorama, h]

/-- Branch lemma: when every image decodes and the engine returns a non-OK
status, `create_panorama` returns `none` after one stitch call, logging the
status code. -/
lemma create_panorama_stitch_fail (stitch : List Image → StitchStatus × Option Image)
    (imread : String → Option Image) (image_files : List String)
    (h1 : (image_files.map imread).any Option.isNone = false)
    (h2 : (stitch ((image_files.map imread).filterMap id)).1 ≠ StitchStatus.OK) :
    create_panorama stitch imread image_files =
      { result := none, imreadCalls := image_files,
        stitchCalls := [(image_files.map imread).filterMap id],
        errorLogs := [stitchFailMsg (stitch ((image_files.map imread).filterMap id)).1] } := by
  have h2n : (stitch (image_files.filterMap imread)).1 ≠ StitchStatus.OK := by
    simpa using h2
  simp [create_panorama, h1, h2n]

/-- Branch lemma: when every image decodes and the engine returns OK,
`create_panorama` returns the engine's raster after one stitch call. -/
lemma create_panorama_stitch_ok (stitch : List Image → StitchStatus × Option Image)
    (imread : String → Option Image) (image_files : List String)
    (h1 : (image_files.map imread).any Option.isNone = false)
    (h2 : (stitch ((image_files.map imread).filterMap id)).1 = StitchStatus.OK) :
    create_panorama stitch imread image_files =
      { result := (stitch ((image_files.map imread).filterMap id)).2,
        imreadCalls := image_files,
        stitchCalls := [(image_files.map imread).filterMap id],
        errorLogs := [] } := by
  have h2n : (stitch (image_files.filterMap imread)).1 = StitchStatus.OK := by
    simpa using h2
  simp [create_panorama, h1, h2n]

/-- Whenever `create_panorama` reaches the engine (no decode failure), the
engine is invoked exactly once, with the decoded list. -/
lemma create_panorama_stitchCalls_eq (stitch : List Image → StitchStatus × Option Image)
    (imread : String → Option Image) (image_files : List String)
    (h : (image_files.map imread).any Option.isNone = false) :
    (create_panorama stitch imread image_files).stitchCalls =
      [(image_files.map imread).filterMap id] := by
  by_cases h2 : (stitch ((image_files.map imread).filterMap id)).1 = StitchStatus.OK
  · rw [create_panorama_stitch_ok stitch imread image_files h h2]
  · rw [create_panorama_stitch_fail stitch imread image_files h h2]

/-- A `some` result can only come out of the OK branch: the engine's status
on the decoded list was `Stitcher_OK`. -/
lemma create_panorama_result_some (stitch : List Image → StitchStatus × Option Image)
    (imread : String → Option Image) (image_files : List String) (p : Image)
    (h : (create_panorama stitch imread image_files).result = some p) :
    (stitch ((image_files.map imread).filterMap id)).1 = StitchStatus.OK := by
  by_cases hA : (image_files.map imread).any Option.isNone = true
  · rw [create_panorama_load_fail stitch imread image_files hA] at h
    exact absurd h (by simp)
  · rw [Bool.not_eq_true] at hA
    by_cases hS : (stitch ((image_files.map imread).filterMap id)).1 = StitchStatus.OK
    · exact hS
    · rw [create_panorama_stitch_fail stitch imread image_files hA hS] at h
      exact absurd h (by simp)

/-- Branch lemma: `main` on an empty scan result logs the no-images error
and stops before any external call. -/
lemma main_empty (stitch : List Image → StitchStatus × Option Image)
    (imread : String → Option Image) (imwrite : String → Image → Bool)
    (input_dir : String) (listing : List String)
    (h : scan_images input_dir listing = []) :
    main stitch imread imwrite input_dir listing =
      { imreadCalls := [], stitchCalls := [], writeCalls := [],
        filesProduced := [], errorLogs := [noImagesMsg], exitCode := 0 } := by
  simp [main, h]

/-- Branch lemma: when the scan is non-empty and `create_panorama` returns
`None`, `main` logs the failure and never calls the writer. -/
lemma main_none (stitch : List Image → StitchStatus × Option Image)
    (imread : String → Option Image) (imwrite : String → Image → Bool)
    (input_dir : String) (listing : List String)
    (hne : scan_images input_dir listing ≠ [])
    (h : (create_panorama stitch imread (scan_images input_dir listing)).result = none) :
    main stitch imread imwrite input_dir listing =
      { imreadCalls :=
          (create_panorama stitch imread (scan_images input_dir listing)).imreadCalls,
        stitchCalls :=
          (create_panorama stitch imread (scan_images input_dir listing)).stitchCalls,
        writeCalls := [], filesProduced := [],
        errorLogs :=
          (create_panorama stitch imread (scan_images input_dir listing)).errorLogs
            ++ [failedPanoramaMsg],
        exitCode := 0 } := by
  have hE : (scan_images input_dir listing).isEmpty = false := by
    simpa using hne
  simp [main, hE, h]

/-- Branch lemma: when the scan is non-empty and `create_panorama` returns
a panorama, `main` hands it to `save_image` at the fixed destination. -/
lemma main_some (stitch : List Image → StitchStatus × Option Image)
    (imread : String → Option Image) (imwrite : String → Image → Bool)
    (input_dir : String) (listing : List String) (pano : Image)
    (hne : scan_images input_dir listing ≠ [])
    (h : (create_panorama stitch imread (scan_images input_dir listing)).result = some pano) :
    main stitch imread imwrite input_dir listing =
      { imreadCalls :=
          (create_panorama stitch imread (scan_images input_dir listing)).imreadCalls,
        stitchCalls :=
          (create_panorama stitch imread (scan_images input_dir listing)).stitchCalls,
        writeCalls := [("panorama_output.jpg", pano)],
        filesProduced :=
          if imwrite "panorama_output.jpg" pano then ["panorama_output.jpg"] else [],
        errorLogs :=
          (create_panorama stitch imread (scan_images input_dir listing)).errorLogs,
        exitCode := 0 } := by
  have hE : (scan_images input_dir listing).isEmpty = false := by
    simpa using hne
  simp [main, hE, h, save_image]

/-! Claim theorems. -/

/-- C1, counterexample to the claim as stated: `create_panorama` does not
return a failure carrying the engine's status code.  Its return value is
`Optional[np.ndarray]`; on the same all-decodable input, an engine failing
with `ERR_NEED_MORE_IMGS` (code 1) and an engine failing with
`ERR_HOMOGRAPHY_EST_FAIL` (code 2) produce the identical return value
`None`, so no status code is passed through to the caller. -/
theorem engine_code_not_returned_cex :
    (create_panorama stitchNeedMore imreadAll ["a.jpg", "b.jpg"]).result = none ∧
    (create_panorama stitchHomFail imreadAll ["a.jpg", "b.jpg"]).result = none ∧
    (create_panorama stitchNeedMore imreadAll ["a.jpg", "b.jpg"]).result =
      (create_panorama stitchHomFail imreadAll ["a.jpg", "b.jpg"]).result := by
  decide

/-- C1 (amended): for every non-empty, all-decodable image set on which the
Stitching Engine returns a non-success status, `create_panorama` returns
`None` to the caller; the engine status code is written to the error log
but is not carried in the return value. -/
theorem stitch_failure_returns_none
    (stitch : List Image → StitchStatus × Option Image)
    (imread : String → Option Image) (image_files : List String)
    (_hne : image_files ≠ [])
    (hdec : ∀ p ∈ image_files, (imread p).isSome)
    (hfail : (stitch ((image_files.map imread).filterMap id)).1 ≠ StitchStatus.OK) :
    (create_panorama stitch imread image_files).result = none ∧
    (create_panorama stitch imread image_files).errorLogs =
      [stitchFailMsg (stitch ((image_files.map imread).filterMap id)).1] := by
  rw [create_panorama_stitch_fail stitch imread image_files
    (any_isNone_eq_false hdec) hfail]
  exact ⟨rfl, rfl⟩

/-- Witness for `stitch_failure_returns_none` at a concrete input. -/
theorem stitch_failure_returns_none_witness :
    (["a.jpg", "b.jpg"] ≠ ([] : List String) ∧
      (∀ p ∈ ["a.jpg", "b.jpg"], (imreadAll p).isSome) ∧
      (stitchNeedMore (((["a.jpg", "b.jpg"]).map imreadAll).filterMap id)).1 ≠
        StitchStatus.OK) ∧
    ((create_panorama stitchNeedMore imreadAll ["a.jpg", "b.jpg"]).result = none ∧
      (create_panorama stitchNeedMore imreadAll ["a.jpg", "b.jpg"]).errorLogs =
        [stitchFailMsg
          (stitchNeedMore (((["a.jpg", "b.jpg"]).map imreadAll).filterMap id)).1]) :=
  ⟨⟨by decide, by decide, by decide⟩,
    stitch_failure_returns_none stitchNeedMore imreadAll ["a.jpg", "b.jpg"]
      (by decide) (by decide) (by decide)⟩

/-- C2, counterexample to the claim as stated: the load failure carries no
reference to the failing path.  Runs failing on path `a.jpg` and on path
`zz.png` return the identical value `None` with the identical fixed log
message, which names no path. -/
theorem load_failure_path_not_referenced_cex :
    (create_panorama stitchOK imreadNone ["a.jpg"]).result = none ∧
    (create_panorama stitchOK imreadNone ["a.jpg"]).errorLogs = [loadErrMsg] ∧
    (create_panorama stitchOK imreadNone ["a.jpg"]).result =
      (create_panorama stitchOK imreadNone ["zz.png"]).result ∧
    (create_panorama stitchOK imreadNone ["a.jpg"]).errorLogs =
      (create_panorama stitchOK imreadNone ["zz.png"]).errorLogs := by
  decide

/-- C2 (amended): for every input path list in which at least one path
fails to decode, the load step fails as a whole — `create_panorama` returns
`None` after logging a fixed message that does not reference the failing
path — no subset of the images is used, and the Stitching Engine is never
invoked for that run. -/
theorem load_failure_aborts_run
    (stitch : List Image → StitchStatus × Option Image)
    (imread : String → Option Image) (image_files : List String) (p : String)
    (hp : p ∈ image_files) (hfail : imread p = none) :
    (create_panorama stitch imread image_files).result = none ∧
    (create_panorama stitch imread image_files).stitchCalls = [] ∧
    (create_panorama stitch imread image_files).errorLogs = [loadErrMsg] := by
  rw [create_panorama_load_fail stitch imread image_files
    (any_isNone_of_mem_none hp hfail)]
  exact ⟨rfl, rfl, rfl⟩

/-- Witness for `load_failure_aborts_run` at a concrete input. -/
theorem load_failure_aborts_run_witness :
    ("a.jpg" ∈ ["a.jpg", "b.jpg"] ∧ imreadNone "a.jpg" = none) ∧
    ((create_panorama stitchOK imreadNone ["a.jpg", "b.jpg"]).result = none ∧
      (create_panorama stitchOK imreadNone ["a.jpg", "b.jpg"]).stitchCalls = [] ∧
      (create_panorama stitchOK imreadNone ["a.jpg", "b.jpg"]).errorLogs =
        [loadErrMsg]) :=
  ⟨⟨by decide, rfl⟩,
    load_failure_aborts_run stitchOK imreadNone ["a.jpg", "b.jpg"] "a.jpg"
      (by decide) rfl⟩

/-- C10 (confirmed): the public result of `create_panorama` collapses every
failure cause into the single value `None` — on any input where some path
fails to decode, and on any input where the engine returns a non-success
status, the returned value is identically `None`, so the caller cannot
tell a decode failure from any engine failure code, nor one engine failure
code from another, from the return value alone. -/
theorem create_panorama_failures_collapse_to_none
    (stitch : List Image → StitchStatus × Option Image)
    (imread : String → Option Image) (image_files : List String)
    (h : (∃ p, p ∈ image_files ∧ imread p = none) ∨
      (stitch ((image_files.map imread).filterMap id)).1 ≠ StitchStatus.OK) :
    (create_panorama stitch imread image_files).result = none := by
  rcases h with ⟨p, hp, hn⟩ | hs
  · rw [create_panorama_load_fail stitch imread image_files
      (any_isNone_of_mem_none hp hn)]
  · by_cases hA : (image_files.map imread).any Option.isNone = true
    · rw [create_panorama_load_fail stitch imread image_files hA]
    · rw [Bool.not_eq_true] at hA
      rw [create_panorama_stitch_fail stitch imread image_files hA hs]

/-- Witness for `create_panorama_failures_collapse_to_none` at a concrete
input. -/
theorem create_panorama_failures_collapse_to_none_witness :
    ((∃ p, p ∈ ["a.jpg"] ∧ imreadNone p = none) ∨
      (stitchOK (((["a.jpg"]).map imreadNone).filterMap id)).1 ≠ StitchStatus.OK) ∧
    (create_panorama stitchOK imreadNone ["a.jpg"]).result = none :=
  ⟨Or.inl ⟨"a.jpg", by decide, rfl⟩,
    create_panorama_failures_collapse_to_none stitchOK imreadNone ["a.jpg"]
      (Or.inl ⟨"a.jpg", by decide, rfl⟩)⟩

/-- C3, counterexample to the claim as stated: a run that ends in an error
(here: empty discovery) produces no output file but exits with status 0,
not a non-zero status — the Python `main` returns normally after logging
the error and never sets an exit code. -/
theorem error_run_exit_code_zero_cex :
    (main stitchOK imreadAll imwriteOK "photos" []).errorLogs = [noImagesMsg] ∧
    (main stitchOK imreadAll imwriteOK "photos" []).filesProduced = [] ∧
    (main stitchOK imreadAll imwriteOK "photos" []).exitCode = 0 := by
  decide

/-- C3 (amended): for every run that ends in any error (empty discovery,
load failure, stitch failure, or write failure), the run produces no
output file, but the process exits with status zero — `main` returns
normally after logging the error, never setting a non-zero exit status. -/
theorem error_run_no_output_exit_zero
    (stitch : List Image → StitchStatus × Option Image)
    (imread : String → Option Image) (imwrite : String → Image → Bool)
    (input_dir : String) (listing : List String)
    (herr : scan_images input_dir listing = [] ∨
      (create_panorama stitch imread (scan_images input_dir listing)).result = none ∨
      ∀ f i, imwrite f i = false) :
    (main stitch imread imwrite input_dir listing).filesProduced = [] ∧
    (main stitch imread imwrite input_dir listing).exitCode = 0 := by
  by_cases hE : scan_images input_dir listing = []
  · rw [main_empty stitch imread imwrite input_dir listing hE]
    exact ⟨rfl, rfl⟩
  · rcases h : (create_panorama stitch imread (scan_images input_dir listing)).result
      with _ | pano
    · rw [main_none stitch imread imwrite input_dir listing hE h]
      exact ⟨rfl, rfl⟩
    · rcases herr with h1 | h2 | h3
      · exact absurd h1 hE
      · rw [h] at h2
        exact absurd h2 (by simp)
      · rw [main_some stitch imread imwrite input_dir listing pano hE h]
        exact ⟨by simp [h3], rfl⟩

/-- Witness for `error_run_no_output_exit_zero` at a concrete input. -/
theorem error_run_no_output_exit_zero_witness :
    (scan_images "photos" ([] : List String) = [] ∨
      (create_panorama stitchOK imreadAll (scan_images "photos" [])).result = none ∨
      ∀ f i, imwriteOK f i = false) ∧
    ((main stitchOK imreadAll imwriteOK "photos" []).filesProduced = [] ∧
      (main stitchOK imreadAll imwriteOK "photos" []).exitCode = 0) :=
  ⟨Or.inl rfl,
    error_run_no_output_exit_zero stitchOK imreadAll imwriteOK "photos" []
      (Or.inl rfl)⟩

/-- C4 (confirmed): for every run in which the Stitching Engine reports a
failure code on the decoded image set, the Result Writer (`save_image`) is
never invoked, so no output file is created or overwritten by that run. -/
theorem engine_failure_no_write
    (stitch : List Image → StitchStatus × Option Image)
    (imread : String → Option Image) (imwrite : String → Image → Bool)
    (input_dir : String) (listing : List String)
    (hfail : (stitch (((scan_images input_dir listing).map imread).filterMap id)).1 ≠
      StitchStatus.OK) :
    (main stitch imread imwrite input_dir listing).writeCalls = [] ∧
    (main stitch imread imwrite input_dir listing).filesProduced = [] := by
  by_cases hE : scan_images input_dir listing = []
  · rw [main_empty stitch imread imwrite input_dir listing hE]
    exact ⟨rfl, rfl⟩
  · rcases h : (create_panorama stitch imread (scan_images input_dir listing)).result
      with _ | pano
    · rw [main_none stitch imread imwrite input_dir listing hE h]
      exact ⟨rfl, rfl⟩
    · exact absurd
        (create_panorama_result_some stitch imread (scan_images input_dir listing) pano h)
        hfail

/-- Witness for `engine_failure_no_write` at a concrete input. -/
theorem engine_failure_no_write_witness :
    ((stitchNeedMore (((scan_images "photos" ["a.jpg"]).map imreadAll).filterMap id)).1 ≠
      StitchStatus.OK) ∧
    ((main stitchNeedMore imreadAll imwriteOK "photos" ["a.jpg"]).writeCalls = [] ∧
      (main stitchNeedMore imreadAll imwriteOK "photos" ["a.jpg"]).filesProduced = []) :=
  ⟨by decide,
    engine_failure_no_write stitchNeedMore imreadAll imwriteOK "photos" ["a.jpg"]
      (by decide)⟩

/-- C5 (confirmed): for every run whose directory discovery yields an empty
image list, `main` stops with the no-images error (the `InputError` of the
design) and never calls `cv2.imread` or the engine: no image is loaded and
no stitch is attempted. -/
theorem empty_discovery_no_load_no_stitch
    (stitch : List Image → StitchStatus × Option Image)
    (imread : String → Option Image) (imwrite : String → Image → Bool)
    (input_dir : String) (listing : List String)
    (h : scan_images input_dir listing = []) :
    (main stitch imread imwrite input_dir listing).errorLogs = [noImagesMsg] ∧
    (main stitch imread imwrite input_dir listing).imreadCalls = [] ∧
    (main stitch imread imwrite input_dir listing).stitchCalls = [] := by
  rw [main_empty stitch imread imwrite input_dir listing h]
  exact ⟨rfl, rfl, rfl⟩

/-- Witness for `empty_discovery_no_load_no_stitch` at a concrete input: a
directory listing holding only `c.txt` scans to the empty image list. -/
theorem empty_discovery_no_load_no_stitch_witness :
    scan_images "photos" ["c.txt"] = [] ∧
    ((main stitchOK imreadAll imwriteOK "photos" ["c.txt"]).errorLogs =
        [noImagesMsg] ∧
      (main stitchOK imreadAll imwriteOK "photos" ["c.txt"]).imreadCalls = [] ∧
      (main stitchOK imreadAll imwriteOK "photos" ["c.txt"]).stitchCalls = []) :=
  ⟨by decide,
    empty_discovery_no_load_no_stitch stitchOK imreadAll imwriteOK "photos" ["c.txt"]
      (by decide)⟩

/-- C6 (confirmed): `scan_images` returns exactly the joined paths of the
listing entries whose lower-cased names end in `.jpg`, `.jpeg` or `.png`;
entries with any other extension are simply absent from the result (they
never cause an error: `scan_images` is total). -/
theorem scan_images_filters_by_extension (directory : String)
    (listing : List String) (x : String) :
    x ∈ scan_images directory listing ↔
      ∃ f, f ∈ listing ∧
        (str_endswith (str_lower f) ".jpg" = true ∨
          str_endswith (str_lower f) ".jpeg" = true ∨
          str_endswith (str_lower f) ".png" = true) ∧
        path_join directory f = x := by
  constructor
  · intro hx
    rcases List.mem_map.mp hx with ⟨f, hf, rfl⟩
    rcases List.mem_filter.mp hf with ⟨hfl, hp⟩
    refine ⟨f, hfl, ?_, rfl⟩
    simpa [supported_extensions] using hp
  · rintro ⟨f, hfl, hp, rfl⟩
    exact List.mem_map.mpr
      ⟨f, List.mem_filter.mpr ⟨hfl, by simpa [supported_extensions] using hp⟩, rfl⟩

/-- C7 (confirmed): for every non-empty, all-decodable input path list,
`create_panorama` invokes the Stitching Engine exactly once, and the
argument list it passes corresponds element by element, in input order, to
the decoded images of the path list. -/
theorem engine_invoked_once_in_order
    (stitch : List Image → StitchStatus × Option Image)
    (imread : String → Option Image) (image_files : List String)
    (_hne : image_files ≠ [])
    (hdec : ∀ p ∈ image_files, (imread p).isSome) :
    ∃ args, (create_panorama stitch imread image_files).stitchCalls = [args] ∧
      args.map some = image_files.map imread := by
  refine ⟨(image_files.map imread).filterMap id,
    create_panorama_stitchCalls_eq stitch imread image_files
      (any_isNone_eq_false hdec), ?_⟩
  apply filterMap_id_map_some
  intro x hx
  rcases List.mem_map.mp hx with ⟨p, hp, rfl⟩
  exact hdec p hp

/-- Witness for `engine_invoked_once_in_order` at a concrete input. -/
theorem engine_invoked_once_in_order_witness :
    (["a.jpg", "b.jpg"] ≠ ([] : List String) ∧
      ∀ p ∈ ["a.jpg", "b.jpg"], (imreadAll p).isSome) ∧
    ∃ args,
      (create_panorama stitchOK imreadAll ["a.jpg", "b.jpg"]).stitchCalls = [args] ∧
      args.map some = (["a.jpg", "b.jpg"]).map imreadAll :=
  ⟨⟨by decide, by decide⟩,
    engine_invoked_once_in_order stitchOK imreadAll ["a.jpg", "b.jpg"]
      (by decide) (by decide)⟩

/-- C8, counterexample to the claim as stated: when the write fails (a
writer that always returns false, as `cv2.imwrite` does when the
destination cannot be created), `save_image` still logs the saved message
and surfaces nothing to its caller — it reports success, not a
`WriteError`, and no file is produced. -/
theorem save_image_reports_success_on_failure_cex :
    (save_image imwriteFail imgPano "panorama_output.jpg").loggedSaved = true ∧
    (save_image imwriteFail imgPano "panorama_output.jpg").filesProduced = [] := by
  decide

/-- C8 (amended): for every write attempt, `save_image` performs exactly
one write (a failed write is not retried) but reports success
unconditionally: the result of `cv2.imwrite` is discarded, nothing is
returned to the caller, and the saved message is logged even when the
destination cannot be created. -/
theorem save_image_single_unchecked_write
    (imwrite : String → Image → Bool) (image : Image) (file_name : String) :
    (save_image imwrite image file_name).writeCalls = [(file_name, image)] ∧
    (save_image imwrite image file_name).loggedSaved = true :=
  ⟨rfl, rfl⟩

end Img2Panorama
